import Mathlib

/-!
Shallow embedding of the webX repository (fetch orchestration and
browser-resource-pool subsystem) for checking the natural-language
specification against the code.

Sources embedded:
- `src/webX/config.py` (settings constants),
- `src/webX/utils.py` (`_extract_hostname`, `check_allow_domain`),
- `src/webX/models.py` (`SearchMode`, `SearchMode.context_size`, outcome shape),
- `src/webX/api_router.py` (`fetch_with_playwright`, `run_parser_as_low`,
  `fetch_html_content`, `run_parser_as_other`, the mode dispatch of
  `search_view`),
- `src/webX/playwright_manager.py` (context pool, lifecycle, semaphore).

External collaborators (Python stdlib `urlparse`, the network, playwright's
browser, trafilatura's extraction) are modelled as oracle parameters: the
embedding is a pure function of the oracle and the input, exactly mirroring
the Python control flow, including which statements can raise and where the
exceptions are caught.
-/

namespace WebX

/-! ### Settings (config.py) -/

/-- `config.py`: `allowed_domains: tuple = ("cn", "com", "org", "gov")`. -/
def allowed_domains : List String := ["cn", "com", "org", "gov"]

/-- `config.py`: `ip_blacklist` tuple. -/
def ip_blacklist : List String :=
  ["bilibili.com", "youtube.com", "facebook.com", "douyin.com", "x.com", "huaweicloud", "zhihu"]

/-- `config.py`: `max_concurrency: int = 5`. -/
def max_concurrency : Nat := 5

/-! ### String helpers for the Python primitives used by the source -/

/-- Whether the first list is an initial segment of the second
(helper for Python's substring operator). -/
def chars_lead : List Char → List Char → Bool
  | [], _ => true
  | _ :: _, [] => false
  | a :: as, b :: bs => a == b && chars_lead as bs

/-- Whether `needle` occurs contiguously inside the second list. -/
def chars_found (needle : List Char) : List Char → Bool
  | [] => needle.isEmpty
  | b :: bs => chars_lead needle (b :: bs) || chars_found needle bs

/-- Python's `needle in haystack` on strings (substring test). -/
def str_in (needle haystack : String) : Bool :=
  chars_found needle.data haystack.data

/-- Python's slice `s[:n]` (first `n` code points). -/
def pyTake (s : String) (n : Nat) : String :=
  String.mk (s.data.take n)

/-- ASCII lowering of one character (`str.lower` on the ASCII range used by
URLs and hostnames; lowering of non-ASCII letters is not exercised by the
source's inputs). -/
def char_lower (c : Char) : Char :=
  if 65 ≤ c.toNat ∧ c.toNat ≤ 90 then Char.ofNat (c.toNat + 32) else c

/-- Python's `s.lower()`. -/
def py_lower (s : String) : String :=
  String.mk (s.data.map char_lower)

/-- Python's `s.endswith(suffix)`. -/
def py_endswith (s suffix : String) : Bool :=
  chars_lead suffix.data.reverse s.data.reverse

/-- ASCII whitespace (the `str.strip` default set on the ASCII range). -/
def is_space (c : Char) : Bool :=
  c = ' ' || c = '\t' || c = '\n' || c = '\r' || c = '\x0b' || c = '\x0c'

/-- Drop leading whitespace characters. -/
def drop_space : List Char → List Char
  | [] => []
  | c :: rest => if is_space c then drop_space rest else c :: rest

/-- Python's `s.strip()`. -/
def py_strip (s : String) : String :=
  String.mk ((drop_space ((drop_space s.data).reverse)).reverse)

/-- The characters of the last `"."`-separated label, i.e.
`s.split(".")[-1]` (`split` never returns an empty list, so the
`if not parts` branch of the source is dead). -/
def last_label_chars : List Char → List Char → List Char
  | [], acc => acc.reverse
  | c :: rest, acc =>
    if c = '.' then last_label_chars rest []
    else last_label_chars rest (c :: acc)

/-- Python's `s.split(".")[-1]`. -/
def last_label (s : String) : String :=
  String.mk (last_label_chars s.data [])

/-- Python's `x or dflt` on an optional string: `None` and `""` are falsy. -/
def pyOrStr (o : Option String) (dflt : String) : String :=
  match o with
  | none => dflt
  | some s => if s = "" then dflt else s

/-! ### DomainPolicy (utils.py) -/

/-- `utils._extract_hostname`: `urlparse` (stdlib, modelled by the oracle
`parse`, which may raise) inside `try`, any exception gives `None`;
a falsy (`None` or empty) hostname gives `None`; otherwise the hostname
lowercased. -/
def _extract_hostname (parse : String → Except String (Option String)) (url : String) :
    Option String :=
  match parse url with
  | .error _ => none
  | .ok none => none
  | .ok (some h) => if h = "" then none else some (py_lower h)

/-- `utils.check_allow_domain`: reject when no hostname; reject `.pdf`,
`.docx`, `.xlsx` URLs; reject when any blacklist entry equals the hostname,
is a dot-suffix of it, or occurs as a substring; accept exactly when the
hostname's last dot-separated label is in `allowed_domains`. -/
def check_allow_domain (parse : String → Except String (Option String)) (url : String) : Bool :=
  match _extract_hostname parse url with
  | none => false
  | some hostname =>
    if py_endswith url ".pdf" || py_endswith url ".docx" || py_endswith url ".xlsx" then false
    else if ip_blacklist.any (fun blocked =>
        py_lower blocked == hostname || py_endswith hostname ("." ++ py_lower blocked) ||
          str_in (py_lower blocked) hostname) then false
    else allowed_domains.contains (last_label hostname)

/-! ### Data model (models.py, api_router.py) -/

/-- `models.SearchMode` (enum low/medium/high/ultra). -/
inductive SearchMode
  | low
  | medium
  | high
  | ultra
  deriving DecidableEq, Repr

/-- `models.SearchMode.context_size`: 1000 / 2000 / 3000 / 5000. -/
def SearchMode.context_size : SearchMode → Nat
  | .low => 1000
  | .medium => 2000
  | .high => 3000
  | .ultra => 5000

/-- One search-result stub as used by `api_router` (`item["url"]`,
`item["title"]`, `item["content"]`, `item["score"]`).  The float score is
abstracted as its already-formatted string (`f"{item['score']:.3f}"`),
since no claim depends on float formatting. -/
structure Stub where
  url : String
  title : String
  content : String
  score : String
  deriving DecidableEq, Repr

/-- `models.SearchSnippets` (a `total=False` TypedDict): per-item outcome
dictionary.  `none` models an absent key or a `None` value. -/
structure Outcome where
  url : String
  title : String
  content : String
  score : Option String := none
  error : Option String := none
  publish_date : Option String := none
  deriving DecidableEq, Repr

/-! ### Environment oracles for the external collaborators -/

/-- Result of the `aiohttp` GET in `fetch_html_content`: either some
exception (network, timeout, decoding) or the body text. -/
inductive HttpResult
  | err (e : String)
  | ok (html : String)
  deriving DecidableEq, Repr

/-- Result of the playwright navigation in `fetch_with_playwright`'s `work`
(plus `run_in_page` itself): either some exception (goto failure, timeout,
pool failure...) or the page title, the page HTML and the visible text of
`body` (`page.locator("body").inner_text()`). -/
inductive RenderOutcome
  | err (e : String)
  | ok (pageTitle : String) (html : String) (bodyText : String)
  deriving DecidableEq, Repr

/-- `trafilatura.bare_extraction` result: `title`, `text`, `date`
attributes, each possibly `None`.  `none` at the top models
`bare_extraction` returning `None`. -/
structure ExtractResult where
  title : Option String
  text : Option String
  date : Option String
  deriving DecidableEq, Repr

/-- The external world: hostname parsing, plain HTTP fetching, rendered
fetching, extraction (keyed by html and url). -/
structure Env where
  parse : String → Except String (Option String)
  http : String → HttpResult
  render : String → RenderOutcome
  extract : String → String → Option ExtractResult

/-! ### Fetchers (api_router.py) -/

/-- `api_router.fetch_html_content`: GET the url; on any exception return a
degraded outcome with the stub's title/content and `error=str(e)`.  On
success run `bare_extraction`; `result.text` when the extraction returned
`None`, and `.strip()` on a `None` text, raise inside the same `try` and
take the same degraded path.  Otherwise the outcome carries
`title = result.title or ""`, `publish_date = result.date or ""` and
`content = cleaned_body.strip()[:mode.context_size]`, with `error=None`. -/
def fetch_html_content (env : Env) (item : Stub) (mode : SearchMode) : Outcome :=
  match env.http item.url with
  | .err e =>
    { url := item.url, title := item.title, content := item.content, error := some e }
  | .ok html =>
    match env.extract html item.url with
    | none =>
      { url := item.url, title := item.title, content := item.content,
        error := some "AttributeError: NoneType has no attribute text" }
    | some result =>
      match result.text with
      | none =>
        { url := item.url, title := item.title, content := item.content,
          error := some "AttributeError: NoneType has no attribute strip" }
      | some txt =>
        { url := item.url, title := pyOrStr result.title "",
          content := pyTake (py_strip txt) mode.context_size,
          error := none, publish_date := some (pyOrStr result.date "") }

/-- `api_router.fetch_with_playwright`: run `work` through
`playwright_manager.run_in_page`; any exception anywhere (navigation,
timeout, pool, `result.title` on a `None` extraction, slicing a `None`
`result.text` in the log statement) is caught by the outer `except`, which
returns the stub's title/content with NO error field set.  On the success
path, `title = result.title or page.title()`, an empty extraction text
falls back to the body's visible text, and the content is
`cleaned_body.strip()[:mode.context_size]`. -/
def fetch_with_playwright (env : Env) (item : Stub) (mode : SearchMode) : Outcome :=
  match env.render item.url with
  | .err _ =>
    { url := item.url, title := item.title, content := item.content }
  | .ok pageTitle html bodyText =>
    match env.extract html item.url with
    | none =>
      { url := item.url, title := item.title, content := item.content }
    | some result =>
      match result.text with
      | none =>
        { url := item.url, title := item.title, content := item.content }
      | some txt =>
        { url := item.url, title := pyOrStr result.title pageTitle,
          content := pyTake (py_strip (if txt = "" then bodyText else txt)) mode.context_size,
          error := none, publish_date := result.date }

/-! ### Orchestrator (api_router.py) -/

/-- `api_router.run_parser_as_low`: one output dict per input stub, copying
url/title/content and the formatted score; no truncation, no fetching. -/
def run_parser_as_low (data : List Stub) : List Outcome :=
  data.map (fun item =>
    { url := item.url, title := item.title, content := item.content, score := some item.score })

/-- The static-page test of `run_parser_as_other`:
`any(url.endswith(ext) for ext in [".html", ".htm", ".shtml"])` on the
lowercased URL. -/
def is_static_url (url : String) : Bool :=
  [".html", ".htm", ".shtml"].any (fun ext => py_endswith (py_lower url) ext)

/-- The rebuild on the final line of `run_parser_as_other`:
`SearchSnippets(url=item["url"], title=item["title"], content=item["content"])`
applied to each gathered fetch outcome — only url/title/content survive. -/
def restrict_keys (o : Outcome) : Outcome :=
  { url := o.url, title := o.title, content := o.content }

/-- `api_router.run_parser_as_other`: keep stubs with a truthy url; keep
those passing `check_allow_domain`; split them into static
(`is_static_url`) and dynamic items; fetch static ones with
`fetch_html_content` and the rest with `fetch_with_playwright`
(`asyncio.gather` keeps the task order: static results then dynamic
results); finally rebuild each outcome with only url/title/content. -/
def run_parser_as_other (env : Env) (data : List Stub) (mode : SearchMode) : List Outcome :=
  let snippets := data.filter (fun d => d.url != "")
  let allowed_items := snippets.filter (fun item => check_allow_domain env.parse item.url)
  let static_html_items := allowed_items.filter (fun item => is_static_url item.url)
  let dynamic_items := allowed_items.filter (fun item => !is_static_url item.url)
  let static_results := static_html_items.map (fun item => fetch_html_content env item mode)
  let dynamic_results := dynamic_items.map (fun item => fetch_with_playwright env item mode)
  (static_results ++ dynamic_results).map restrict_keys

/-- The raw passthrough of `search_view`'s `case _` (ultra): `snippets = data`,
the upstream dicts (url/title/content/score) unchanged. -/
def raw_snippet (item : Stub) : Outcome :=
  { url := item.url, title := item.title, content := item.content, score := some item.score }

/-- The mode dispatch in `api_router.search_view` (the orchestrator's
`Enrich`): `low → run_parser_as_low`, `medium/high → run_parser_as_other`
with that mode, anything else (`ultra`) returns the upstream data as is. -/
def enrich (env : Env) (data : List Stub) (mode : SearchMode) : List Outcome :=
  match mode with
  | .low => run_parser_as_low data
  | .medium => run_parser_as_other env data .medium
  | .high => run_parser_as_other env data .high
  | .ultra => data.map raw_snippet

/-! ### Context pool (playwright_manager.py)

Browser contexts are modelled by numeric ids.  The dict
`_context_usage_count` is an insertion-ordered association list with unique
keys, `_context_pool` a list of ids, and closed contexts are recorded so
that "closed" versus "still pooled" is observable. -/

/-- Association-list model of the `_context_usage_count` dict. -/
abbrev UsageMap := List (Nat × Nat)

/-- Dict lookup `m.get(k)`. -/
def umLookup (m : UsageMap) (k : Nat) : Option Nat :=
  match m with
  | [] => none
  | (k2, v) :: rest => if k2 = k then some v else umLookup rest k

/-- Dict membership `k in m`. -/
def umContains (m : UsageMap) (k : Nat) : Bool :=
  (umLookup m k).isSome

/-- Dict update `m[k] = v` (overwrite in place, else append). -/
def umSet (m : UsageMap) (k : Nat) (v : Nat) : UsageMap :=
  match m with
  | [] => [(k, v)]
  | (k2, v2) :: rest => if k2 = k then (k2, v) :: rest else (k2, v2) :: umSet rest k v

/-- Dict deletion `del m[k]`. -/
def umErase (m : UsageMap) (k : Nat) : UsageMap :=
  match m with
  | [] => []
  | (k2, v2) :: rest => if k2 = k then rest else (k2, v2) :: umErase rest k

/-- `PlaywrightManager.__init__`:
`_max_pool_size = min(settings.max_concurrency * 2, 10)`. -/
def max_pool_size : Nat := min (max_concurrency * 2) 10

/-- `PlaywrightManager.__init__`: `_max_context_reuse = 2`. -/
def max_context_reuse : Nat := 2

/-- Pool-relevant state of a `PlaywrightManager`. -/
structure PoolState where
  context_pool : List Nat
  usage : UsageMap
  nextId : Nat
  closed : List Nat
  deriving DecidableEq, Repr

/-- The `while self._context_pool:` loop of `_get_context_from_pool`:
pop the front; hand it out when it is untracked or its count is below
`_max_context_reuse`; otherwise close it, delete its counter, and keep
looping.  Returns (chosen context or none, remaining pool, usage dict,
closed log). -/
def get_ctx_loop : List Nat → UsageMap → List Nat → Option Nat × List Nat × UsageMap × List Nat
  | [], usage, closedAcc => (none, [], usage, closedAcc)
  | c :: rest, usage, closedAcc =>
    match umLookup usage c with
    | none => (some c, rest, usage, closedAcc)
    | some n =>
      if n < max_context_reuse then (some c, rest, usage, closedAcc)
      else get_ctx_loop rest (umErase usage c) (closedAcc ++ [c])

/-- `PlaywrightManager._get_context_from_pool`: run the loop; when it finds
no reusable context, create a fresh one with usage count 0. -/
def _get_context_from_pool (s : PoolState) : Nat × PoolState :=
  match get_ctx_loop s.context_pool s.usage s.closed with
  | (some c, pool2, usage2, closed2) =>
    (c, { context_pool := pool2, usage := usage2, nextId := s.nextId, closed := closed2 })
  | (none, pool2, usage2, closed2) =>
    (s.nextId,
      { context_pool := pool2, usage := umSet usage2 s.nextId 0,
        nextId := s.nextId + 1, closed := closed2 })

/-- `PlaywrightManager._return_context_to_pool`: bump the usage counter when
tracked; append to the pool when `len(pool) < _max_pool_size`, otherwise
close the context and delete its counter. -/
def _return_context_to_pool (s : PoolState) (c : Nat) : PoolState :=
  let usage1 :=
    if umContains s.usage c then umSet s.usage c ((umLookup s.usage c).getD 0 + 1)
    else s.usage
  if s.context_pool.length < max_pool_size then
    { s with usage := usage1, context_pool := s.context_pool ++ [c] }
  else
    { s with usage := umErase usage1 c, closed := s.closed ++ [c] }

/-- `PlaywrightManager._release_context`: return to the pool when
`from_pool`, else just close the context. -/
def _release_context (s : PoolState) (c : Nat) (from_pool : Bool) : PoolState :=
  if from_pool then _return_context_to_pool s c
  else { s with closed := s.closed ++ [c] }

/-- `PlaywrightManager._initialize_context_pool`:
`initial_pool_size = min(10, self._max_pool_size)` fresh contexts, each
with usage count 0. -/
def _initialize_context_pool : PoolState :=
  let n := min 10 max_pool_size
  { context_pool := List.range n,
    usage := (List.range n).map (fun i => (i, 0)),
    nextId := n,
    closed := [] }

/-- One pool operation: a checkout (`_get_context_from_pool`) or a return
(`_return_context_to_pool c`). -/
inductive PoolOp
  | acquire
  | release (c : Nat)
  deriving DecidableEq, Repr

/-- Apply one pool operation to the state. -/
def apply_pool_op (s : PoolState) : PoolOp → PoolState
  | .acquire => (_get_context_from_pool s).2
  | .release c => _return_context_to_pool s c

/-- Apply a sequence of pool operations. -/
def run_pool_ops (s : PoolState) (ops : List PoolOp) : PoolState :=
  ops.foldl apply_pool_op s

/-- The context lifecycle of one `run_in_page` call (`playwright_manager.py`
`try/finally`): check a context out, run the task (which may fail), and in
`finally` always call `_release_context(context, context_from_pool)` with
`context_from_pool = True` — on the success path and on the error path
alike. -/
def run_in_page_ctx (s : PoolState) (task_fails : Bool) : Except String Unit × PoolState :=
  let acq := _get_context_from_pool s
  let res : Except String Unit := if task_fails then .error "task error" else .ok ()
  (res, _release_context acq.2 acq.1 true)

/-! ### Lifecycle (playwright_manager.py start/stop/run_in_page) -/

/-- Lifecycle flags of the manager: `_started` and whether `_browser` is a
live object (`_browser is not None`). -/
structure LifeState where
  started : Bool
  browser : Bool
  deriving DecidableEq, Repr

/-- `PlaywrightManager.stop` = `_cleanup_partial_init`: close everything,
`_browser = None`, `_started = False`. -/
def stop_state (_s : LifeState) : LifeState :=
  { started := false, browser := false }

/-- `PlaywrightManager.start` under `_start_lock`: return unchanged when
`_started and _browser is not None`; otherwise launch the browser
(`launch_ok` oracle): on success `_started = True` with a live browser, on
failure clean up and re-raise. -/
def start_state (launch_ok : Bool) (s : LifeState) : Except String LifeState :=
  if s.started && s.browser then .ok s
  else if launch_ok then .ok { started := true, browser := true }
  else .error "Failed to start Playwright"

/-- Whether a `run_in_page` call gets past its admission checks (and with
what manager state), or raises. -/
inductive Admission
  | accepted (s : LifeState)
  | rejected (msg : String)
  deriving DecidableEq, Repr

/-- The admission prologue of `PlaywrightManager.run_in_page`: when not
started or the browser is gone, lazily call `start()` (whose exception
propagates); then `raise RuntimeError` when the browser is still `None`;
otherwise proceed to the semaphore. -/
def run_in_page_admission (launch_ok : Bool) (s : LifeState) : Admission :=
  let s1 :=
    if !s.started || !s.browser then start_state launch_ok s
    else .ok s
  match s1 with
  | .error e => .rejected e
  | .ok s2 =>
    if !s2.browser then .rejected "Failed to initialize Playwright browser"
    else .accepted s2

/-! ### Concurrency (the global semaphore of run_in_page)

Cooperatively-scheduled tasks are modelled by an interleaving transition
system.  `active` counts tasks inside `async with self._semaphore` (the
render region of `run_in_page`); an acquire step is enabled only when a
slot is free, which is exactly `asyncio.Semaphore(settings.max_concurrency)`.
Light fetches (`fetch_html_content`) never touch the semaphore, so light
steps are unguarded. -/

/-- Occupancy state: tasks holding the render semaphore, and concurrently
running light fetches. -/
structure SemState where
  active : Nat
  light_active : Nat
  deriving DecidableEq, Repr

/-- Initial state: no task running. -/
def SemState.init : SemState :=
  { active := 0, light_active := 0 }

/-- Interleaving steps of the system: semaphore acquire (guarded by a free
slot), semaphore release, and unguarded light-fetch start/finish. -/
inductive SemStep : SemState → SemState → Prop
  | render_acquire (s : SemState) (h : s.active < max_concurrency) :
      SemStep s { s with active := s.active + 1 }
  | render_release (s : SemState) (h : 0 < s.active) :
      SemStep s { s with active := s.active - 1 }
  | light_start (s : SemState) :
      SemStep s { s with light_active := s.light_active + 1 }
  | light_finish (s : SemState) (h : 0 < s.light_active) :
      SemStep s { s with light_active := s.light_active - 1 }

/-- States reachable from the idle system. -/
def SemReachable (s : SemState) : Prop :=
  Relation.ReflTransGen SemStep SemState.init s

/-! ### Concrete oracles and inputs used by counterexamples and witnesses -/

/-- An environment whose hostname parser recognises nothing: every URL is
policy-rejected. -/
def env_reject : Env :=
  { parse := fun _ => .ok none,
    http := fun _ => .err "unused",
    render := fun _ => .err "unused",
    extract := fun _ _ => none }

/-- A stub whose URL yields no hostname (policy-rejected). -/
def stub_reject : Stub :=
  { url := "notaurl", title := "T", content := "S", score := "0.500" }

/-- A small eligible stub. -/
def stub_small : Stub :=
  { url := "https://a.com/", title := "T", content := "S", score := "0.500" }

/-- A hostname parser that raises on every input (models `urlparse`
throwing). -/
def parse_fail : String → Except String (Option String) :=
  fun _ => .error "parse failure"

/-! ### Theorems -/

/-- Splitting a list by a boolean predicate preserves total length. -/
theorem length_filter_add_length_filter_not {α : Type} (p : α → Bool) (l : List α) :
    (l.filter p).length + (l.filter (fun a => !p a)).length = l.length := by
  induction l with
  | nil => rfl
  | cons a t ih => cases h : p a <;> simp [List.filter_cons, h] <;> omega

/-- `run_parser_as_other` equals the explicit partition form: eligible
static items fetched lightly, the remaining eligible items rendered, each
outcome then restricted to url/title/content. -/
theorem run_parser_as_other_eq (env : Env) (data : List Stub) (mode : SearchMode) :
    run_parser_as_other env data mode =
      (((data.filter (fun d => d.url != "")).filter
          (fun d => check_allow_domain env.parse d.url)).filter
        (fun d => is_static_url d.url)).map
          (fun item => restrict_keys (fetch_html_content env item mode)) ++
      (((data.filter (fun d => d.url != "")).filter
          (fun d => check_allow_domain env.parse d.url)).filter
        (fun d => !is_static_url d.url)).map
          (fun item => restrict_keys (fetch_with_playwright env item mode)) := by
  simp only [run_parser_as_other, List.map_append, List.map_map]
  rfl

/-- C1 (amended): Low and Ultra return one outcome per input stub; Medium
and High return one outcome per policy-eligible stub with a non-empty URL —
stubs rejected by `check_allow_domain` (or with an empty URL) are dropped
from the output, not passed through. -/
theorem enrich_length_spec (env : Env) (data : List Stub) :
    (enrich env data .low).length = data.length ∧
    (enrich env data .ultra).length = data.length ∧
    (enrich env data .medium).length =
      ((data.filter (fun d => d.url != "")).filter
        (fun d => check_allow_domain env.parse d.url)).length ∧
    (enrich env data .high).length =
      ((data.filter (fun d => d.url != "")).filter
        (fun d => check_allow_domain env.parse d.url)).length := by
  refine ⟨?_, ?_, ?_, ?_⟩
  · simp [enrich, run_parser_as_low]
  · simp [enrich]
  · rw [show enrich env data .medium = run_parser_as_other env data .medium from rfl,
      run_parser_as_other_eq]
    simp only [List.length_append, List.length_map]
    exact length_filter_add_length_filter_not _ _
  · rw [show enrich env data .high = run_parser_as_other env data .high from rfl,
      run_parser_as_other_eq]
    simp only [List.length_append, List.length_map]
    exact length_filter_add_length_filter_not _ _

/-- C1 (counterexample): a single policy-rejected stub in Medium mode is
dropped — the output is empty, so `len(Enrich(stubs, mode)) ≠ len(stubs)`
and the rejected stub does not pass through as a fallback outcome. -/
theorem rejected_stub_dropped_cex :
    (enrich env_reject [stub_reject] SearchMode.medium).length = 0 ∧
    [stub_reject].length = 1 :=
  ⟨rfl, rfl⟩

/-- C2 (amended): for Medium and High (the two modes that dispatch at all),
the static test is whether the lowercased URL ends in `.html`, `.htm` or
`.shtml` — `.xhtml` is not in the list — and eligible items split into
light fetches versus playwright renders accordingly; Ultra performs no
dispatch and returns the upstream data unchanged. -/
theorem dispatch_partition_spec (env : Env) (data : List Stub) (mode : SearchMode) :
    (∀ url : String, is_static_url url =
        (py_endswith (py_lower url) ".html" ||
          (py_endswith (py_lower url) ".htm" || py_endswith (py_lower url) ".shtml"))) ∧
    run_parser_as_other env data mode =
      (((data.filter (fun d => d.url != "")).filter
          (fun d => check_allow_domain env.parse d.url)).filter
        (fun d => is_static_url d.url)).map
          (fun item => restrict_keys (fetch_html_content env item mode)) ++
      (((data.filter (fun d => d.url != "")).filter
          (fun d => check_allow_domain env.parse d.url)).filter
        (fun d => !is_static_url d.url)).map
          (fun item => restrict_keys (fetch_with_playwright env item mode)) ∧
    enrich env data .ultra = data.map raw_snippet := by
  refine ⟨?_, run_parser_as_other_eq env data mode, rfl⟩
  intro url
  simp [is_static_url]

/-- An eligible stub whose URL ends in `.xhtml`. -/
def stub_xhtml : Stub :=
  { url := "https://a.com/p.xhtml", title := "T", content := "S", score := "0.500" }

/-- An environment in which the light fetch and the rendered fetch of
`stub_xhtml` give visibly different outcomes. -/
def env_xhtml : Env :=
  { parse := fun u => if u = "https://a.com/p.xhtml" then .ok (some "a.com") else .ok none,
    http := fun _ => .ok "LIGHTHTML",
    render := fun _ => .ok "PT" "RENDERHTML" "BODY",
    extract := fun h _ =>
      if h = "LIGHTHTML" then some { title := some "LT", text := some "light text", date := none }
      else some { title := some "RT", text := some "render text", date := none } }

/-- C2 (counterexample): the policy-eligible stub `https://a.com/p.xhtml`
(URL path ending in `.xhtml`) is dispatched to playwright rendering, not to
the light HTTP fetcher — its outcome is the rendered one and differs from
what the light fetcher would have produced. -/
theorem xhtml_dispatched_to_render_cex :
    run_parser_as_other env_xhtml [stub_xhtml] SearchMode.medium =
      [restrict_keys (fetch_with_playwright env_xhtml stub_xhtml SearchMode.medium)] ∧
    restrict_keys (fetch_with_playwright env_xhtml stub_xhtml SearchMode.medium) ≠
      restrict_keys (fetch_html_content env_xhtml stub_xhtml SearchMode.medium) := by
  exact ⟨by decide, by decide⟩

/-- Truncation bound for the Python slice model. -/
theorem pyTake_length_le (s : String) (n : Nat) : (pyTake s n).length ≤ n := by
  show (s.data.take n).length ≤ n
  exact List.length_take_le n s.data

/-- The light fetcher caps extracted content at the mode's size; its
degraded outcome copies the stub's content verbatim. -/
theorem fetch_html_content_content_le (env : Env) (item : Stub) (mode : SearchMode) :
    (fetch_html_content env item mode).content.length ≤
      max mode.context_size item.content.length := by
  unfold fetch_html_content
  cases env.http item.url with
  | err e => exact le_max_right _ _
  | ok html =>
    dsimp only
    cases env.extract html item.url with
    | none => exact le_max_right _ _
    | some result =>
      dsimp only
      cases result.text with
      | none => exact le_max_right _ _
      | some txt =>
        dsimp only
        exact le_trans (pyTake_length_le _ _) (le_max_left _ _)

/-- The rendered fetcher caps extracted (or body-fallback) content at the
mode's size; its degraded outcome copies the stub's content verbatim. -/
theorem fetch_with_playwright_content_le (env : Env) (item : Stub) (mode : SearchMode) :
    (fetch_with_playwright env item mode).content.length ≤
      max mode.context_size item.content.length := by
  unfold fetch_with_playwright
  cases env.render item.url with
  | err e => exact le_max_right _ _
  | ok pageTitle html bodyText =>
    dsimp only
    cases env.extract html item.url with
    | none => exact le_max_right _ _
    | some result =>
      dsimp only
      cases result.text with
      | none => exact le_max_right _ _
      | some txt =>
        dsimp only
        exact le_trans (pyTake_length_le _ _) (le_max_left _ _)

/-- Content bound for the Medium/High pipeline, relative to the stubs. -/
theorem run_parser_as_other_content_le (env : Env) (data : List Stub) (mode : SearchMode) :
    ∀ o ∈ run_parser_as_other env data mode, ∃ d ∈ data,
      o.content.length ≤ max mode.context_size d.content.length := by
  intro o ho
  rw [run_parser_as_other_eq] at ho
  rw [List.mem_append] at ho
  cases ho with
  | inl h1 =>
    rw [List.mem_map] at h1
    obtain ⟨item, hitem, rfl⟩ := h1
    have hd : item ∈ data :=
      (List.mem_filter.mp ((List.mem_filter.mp ((List.mem_filter.mp hitem).1)).1)).1
    exact ⟨item, hd, fetch_html_content_content_le env item mode⟩
  | inr h2 =>
    rw [List.mem_map] at h2
    obtain ⟨item, hitem, rfl⟩ := h2
    have hd : item ∈ data :=
      (List.mem_filter.mp ((List.mem_filter.mp ((List.mem_filter.mp hitem).1)).1)).1
    exact ⟨item, hd, fetch_with_playwright_content_le env item mode⟩

/-- C3 (amended): every outcome's content length is at most
`max(mode cap, some input stub's content length)`: content that was fetched
and extracted in Medium/High is truncated to the mode's cap, but degraded
outcomes copy the stub's snippet untruncated, and Low/Ultra outcomes copy
the stub's content with no truncation at all. -/
theorem content_length_bound_spec (env : Env) (data : List Stub) (mode : SearchMode) :
    ∀ o ∈ enrich env data mode, ∃ d ∈ data,
      o.content.length ≤ max mode.context_size d.content.length := by
  intro o ho
  cases mode with
  | low =>
    simp only [enrich, run_parser_as_low, List.mem_map] at ho
    obtain ⟨d, hd, rfl⟩ := ho
    exact ⟨d, hd, le_max_right _ _⟩
  | ultra =>
    simp only [enrich, List.mem_map] at ho
    obtain ⟨d, hd, rfl⟩ := ho
    exact ⟨d, hd, le_max_right _ _⟩
  | medium => exact run_parser_as_other_content_le env data .medium o ho
  | high => exact run_parser_as_other_content_le env data .high o ho

/-- C3 (witness): the content bound applied to a concrete Low-mode batch. -/
theorem content_length_bound_spec_witness :
    ∃ d ∈ [stub_small], (raw_snippet stub_small).content.length ≤
      max SearchMode.low.context_size d.content.length :=
  content_length_bound_spec env_reject [stub_small] SearchMode.low (raw_snippet stub_small)
    (List.Mem.head _)

/-- A 1001-character content string. -/
def big_content : String :=
  String.mk (List.replicate 1001 'a')

/-- A stub whose snippet exceeds the Low-mode cap. -/
def stub_big : Stub :=
  { url := "https://a.com/", title := "T", content := big_content, score := "0.500" }

/-- C3 (counterexample): in Low mode a stub with a 1001-character snippet
yields an outcome whose content is 1001 characters long, although the
Low-mode cap is 1000 — `run_parser_as_low` never truncates. -/
theorem low_mode_content_uncapped_cex :
    (enrich env_reject [stub_big] SearchMode.low).map (fun o => o.content.length) = [1001] ∧
    SearchMode.low.context_size = 1000 := by
  constructor
  · show [big_content.length] = [1001]
    have : big_content.length = 1001 := by
      show (List.replicate 1001 'a').length = 1001
      rw [List.length_replicate]
    rw [this]
  · rfl

/-- C10 (confirmed): `check_allow_domain` is total and deterministic — it is
a pure function of the URL (determinism is definitional in this embedding),
the only sub-call that can raise (`urlparse`) is caught inside
`_extract_hostname`, and a URL from which no hostname can be extracted
(including one on which the parser raises) always yields `false`. -/
theorem check_allow_domain_total_spec
    (parse : String → Except String (Option String)) (url : String) :
    (∀ e, parse url = .error e → check_allow_domain parse url = false) ∧
    (_extract_hostname parse url = none → check_allow_domain parse url = false) := by
  constructor
  · intro e he
    have h0 : _extract_hostname parse url = none := by
      unfold _extract_hostname
      rw [he]
    unfold check_allow_domain
    rw [h0]
  · intro h0
    unfold check_allow_domain
    rw [h0]

/-- C10 (witness): a parser that raises is handled and the URL rejected. -/
theorem check_allow_domain_total_spec_witness :
    check_allow_domain parse_fail "http://bad" = false :=
  (check_allow_domain_total_spec parse_fail "http://bad").1 "parse failure" rfl

/-- An environment in which both the HTTP GET and the rendered fetch raise. -/
def env_bothfail : Env :=
  { parse := fun _ => .ok (some "a.com"),
    http := fun _ => .err "boom",
    render := fun _ => .err "boom",
    extract := fun _ _ => none }

/-- An eligible static-page stub (URL ends in `.html`). -/
def stub_html : Stub :=
  { url := "https://a.com/p.html", title := "T", content := "S", score := "0.500" }

/-- C4 (amended): per-item failures are caught: a failing HTTP GET yields a
degraded outcome with the stub's title/content and the error string, a
failing rendered fetch yields a degraded outcome with the stub's
title/content and NO error set, and the final assembly rebuilds every
outcome with only url/title/content, so no outcome in the returned list
ever carries an error string; no per-item failure propagates (the batch
function is total). -/
theorem failure_degradation_spec (env : Env) (item : Stub) (mode : SearchMode)
    (data : List Stub) (e : String) :
    (env.http item.url = .err e →
      fetch_html_content env item mode =
        { url := item.url, title := item.title, content := item.content, error := some e }) ∧
    (env.render item.url = .err e →
      fetch_with_playwright env item mode =
        { url := item.url, title := item.title, content := item.content }) ∧
    (∀ o ∈ run_parser_as_other env data mode, o.error = none) := by
  refine ⟨?_, ?_, ?_⟩
  · intro h
    unfold fetch_html_content
    rw [h]
  · intro h
    unfold fetch_with_playwright
    rw [h]
  · intro o ho
    rw [run_parser_as_other_eq, List.mem_append] at ho
    cases ho with
    | inl h1 =>
      rw [List.mem_map] at h1
      obtain ⟨i, _, rfl⟩ := h1
      rfl
    | inr h2 =>
      rw [List.mem_map] at h2
      obtain ⟨i, _, rfl⟩ := h2
      rfl

/-- C4 (witness): the degradation shapes at a concrete failing environment,
and the error-free final assembly at a concrete member of the batch
output. -/
theorem failure_degradation_spec_witness :
    fetch_html_content env_bothfail stub_small SearchMode.medium =
      { url := stub_small.url, title := stub_small.title, content := stub_small.content,
        error := some "boom" } ∧
    fetch_with_playwright env_bothfail stub_small SearchMode.medium =
      { url := stub_small.url, title := stub_small.title, content := stub_small.content } ∧
    (restrict_keys (fetch_html_content env_bothfail stub_html SearchMode.medium)).error = none :=
  ⟨(failure_degradation_spec env_bothfail stub_small SearchMode.medium [stub_html] "boom").1 rfl,
   (failure_degradation_spec env_bothfail stub_small SearchMode.medium [stub_html] "boom").2.1 rfl,
   (failure_degradation_spec env_bothfail stub_small SearchMode.medium [stub_html] "boom").2.2
     (restrict_keys (fetch_html_content env_bothfail stub_html SearchMode.medium))
     (List.Mem.head _)⟩

/-- An environment whose HTTP GET fails while the stub is eligible and
static. -/
def env_httpfail : Env :=
  { parse := fun _ => .ok (some "a.com"),
    http := fun _ => .err "boom",
    render := fun _ => .err "unused",
    extract := fun _ _ => none }

/-- C4 (counterexample): a per-item fetch failure ("boom" on the static
eligible stub) produces an intermediate degraded outcome carrying the error
string, but the outcome in the list actually returned by the batch function
carries NO error string — the final rebuild drops the `error` field. -/
theorem error_string_dropped_cex :
    env_httpfail.http stub_html.url = HttpResult.err "boom" ∧
    (fetch_html_content env_httpfail stub_html SearchMode.medium).error = some "boom" ∧
    (run_parser_as_other env_httpfail [stub_html] SearchMode.medium).map (fun o => o.error) =
      [none] :=
  ⟨rfl, rfl, rfl⟩

/-- C5 (amended): when extraction yields empty text on a rendered page, the
content is rebuilt from the raw visible text of the page body (stripped and
capped); when the body text is also empty the final content is the EMPTY
string — the stub's snippet becomes the content only when an exception is
raised, not in this case. -/
theorem empty_extraction_fallback_spec (env : Env) (item : Stub) (mode : SearchMode)
    (pt html body : String) (r : ExtractResult)
    (hrender : env.render item.url = .ok pt html body)
    (hextract : env.extract html item.url = some r)
    (htext : r.text = some "") :
    (fetch_with_playwright env item mode).content = pyTake (py_strip body) mode.context_size ∧
    (body = "" → (fetch_with_playwright env item mode).content = "") := by
  have hmain : (fetch_with_playwright env item mode).content =
      pyTake (py_strip body) mode.context_size := by
    unfold fetch_with_playwright
    rw [hrender]
    dsimp only
    rw [hextract]
    dsimp only
    rw [htext]
    dsimp only
    rw [if_pos rfl]
  refine ⟨hmain, ?_⟩
  intro hb
  rw [hmain, hb]
  show String.mk (List.take mode.context_size ([] : List Char)) = ""
  rw [List.take_nil]

/-- An environment where the rendered page extracts to empty text and the
page body is empty too. -/
def env_emptytext : Env :=
  { parse := fun _ => .ok (some "a.com"),
    http := fun _ => .err "unused",
    render := fun _ => .ok "PT" "H" "",
    extract := fun _ _ => some { title := some "ET", text := some "", date := none } }

/-- A stub with a non-empty snippet. -/
def stub_snip : Stub :=
  { url := "https://a.com/page", title := "T", content := "SNIP", score := "0.500" }

/-- C5 (counterexample): extraction yields empty text and the body text is
empty too; the final content is the empty string, NOT the stub's snippet
"SNIP" as the claim requires. -/
theorem empty_body_not_snippet_cex :
    (fetch_with_playwright env_emptytext stub_snip SearchMode.medium).content = "" ∧
    stub_snip.content = "SNIP" :=
  ⟨rfl, rfl⟩

/-- C5 (witness): the body-text fallback at a concrete environment. -/
theorem empty_extraction_fallback_spec_witness :
    (fetch_with_playwright env_emptytext stub_snip SearchMode.medium).content =
      pyTake (py_strip "") SearchMode.medium.context_size ∧
    ("" = "" → (fetch_with_playwright env_emptytext stub_snip SearchMode.medium).content = "") :=
  empty_extraction_fallback_spec env_emptytext stub_snip SearchMode.medium "PT" "H" ""
    { title := some "ET", text := some "", date := none } rfl rfl rfl

/-- C6 (confirmed): in every reachable state of the interleaving system the
number of concurrently active render operations is at most
`settings.max_concurrency` — the semaphore guard is the sole admission
control — while light fetches are not subject to the cap: a reachable state
exists with more than `max_concurrency` light fetches in flight. -/
theorem render_concurrency_bound :
    (∀ s : SemState, SemReachable s → s.active ≤ max_concurrency) ∧
    (∃ s : SemState, SemReachable s ∧ max_concurrency < s.light_active) := by
  constructor
  · intro s h
    induction h with
    | refl => exact Nat.zero_le _
    | tail hab hbc ih =>
      cases hbc with
      | render_acquire h2 => exact h2
      | render_release h2 => exact le_trans (Nat.sub_le _ _) ih
      | light_start => exact ih
      | light_finish h2 => exact ih
  · refine ⟨{ active := 0, light_active := 6 }, ?_, by decide⟩
    exact Relation.ReflTransGen.tail
      (Relation.ReflTransGen.tail
        (Relation.ReflTransGen.tail
          (Relation.ReflTransGen.tail
            (Relation.ReflTransGen.tail
              (Relation.ReflTransGen.tail Relation.ReflTransGen.refl
                (SemStep.light_start { active := 0, light_active := 0 }))
              (SemStep.light_start { active := 0, light_active := 1 }))
            (SemStep.light_start { active := 0, light_active := 2 }))
          (SemStep.light_start { active := 0, light_active := 3 }))
        (SemStep.light_start { active := 0, light_active := 4 }))
      (SemStep.light_start { active := 0, light_active := 5 })

/-- C6 (witness): the bound applied at the initial state. -/
theorem render_concurrency_bound_witness :
    SemState.init.active ≤ max_concurrency :=
  render_concurrency_bound.1 SemState.init Relation.ReflTransGen.refl

/-- The checkout loop never grows the pool list. -/
theorem get_ctx_loop_pool_le (pool : List Nat) (usage : UsageMap) (closedAcc : List Nat) :
    (get_ctx_loop pool usage closedAcc).2.1.length ≤ pool.length := by
  induction pool generalizing usage closedAcc with
  | nil => exact Nat.le_refl _
  | cons c rest ih =>
    unfold get_ctx_loop
    cases umLookup usage c with
    | none => exact Nat.le_succ_of_le (Nat.le_refl _)
    | some n =>
      dsimp only
      split
      · exact Nat.le_succ_of_le (Nat.le_refl _)
      · exact Nat.le_succ_of_le (ih _ _)

/-- A checkout never grows the pool list. -/
theorem _get_context_from_pool_pool_le (s : PoolState) :
    (_get_context_from_pool s).2.context_pool.length ≤ s.context_pool.length := by
  have h := get_ctx_loop_pool_le s.context_pool s.usage s.closed
  unfold _get_context_from_pool
  rcases hres : get_ctx_loop s.context_pool s.usage s.closed with ⟨o, pool2, usage2, closed2⟩
  rw [hres] at h
  cases o with
  | none => exact h
  | some c => exact h

/-- A return keeps the pool within its bound. -/
theorem _return_context_to_pool_pool_le (s : PoolState) (c : Nat)
    (hs : s.context_pool.length ≤ max_pool_size) :
    (_return_context_to_pool s c).context_pool.length ≤ max_pool_size := by
  unfold _return_context_to_pool
  dsimp only
  split
  · next h =>
    simp only [List.length_append, List.length_singleton]
    omega
  · exact hs

/-- The pool bound is preserved by any operation sequence. -/
theorem run_pool_ops_pool_le (ops : List PoolOp) (s : PoolState)
    (hs : s.context_pool.length ≤ max_pool_size) :
    (run_pool_ops s ops).context_pool.length ≤ max_pool_size := by
  induction ops generalizing s with
  | nil => exact hs
  | cons op rest ih =>
    cases op with
    | acquire => exact ih _ (le_trans (_get_context_from_pool_pool_le s) hs)
    | release c => exact ih _ (_return_context_to_pool_pool_le s c hs)

/-- Updating a key makes it present with the new value. -/
theorem umLookup_umSet_self (m : UsageMap) (k v : Nat) :
    umLookup (umSet m k v) k = some v := by
  induction m with
  | nil => simp [umSet, umLookup]
  | cons p rest ih =>
    obtain ⟨k2, v2⟩ := p
    by_cases h : k2 = k
    · simp [umSet, umLookup, h]
    · simp [umSet, umLookup, h, ih]

/-- C7 (amended): under any sequence of checkouts and returns starting from
the initialised pool, the pool size never exceeds
`min(2 × concurrencyLimit, poolCap)`; however, releasing the same context
twice is NOT idempotent: while pool capacity remains, a double release
increments the context's reuse counter twice and inserts it into the pool
twice. -/
theorem pool_size_bound_spec :
    (∀ ops : List PoolOp,
      (run_pool_ops _initialize_context_pool ops).context_pool.length ≤ max_pool_size) ∧
    (∀ (s : PoolState) (c n : Nat), umLookup s.usage c = some n →
      s.context_pool.length + 1 < max_pool_size →
      umLookup (_return_context_to_pool (_return_context_to_pool s c) c).usage c =
        some (n + 2)) := by
  constructor
  · intro ops
    apply run_pool_ops_pool_le
    decide
  · intro s c n hl hlt
    have hc : umContains s.usage c = true := by
      unfold umContains
      rw [hl]
      rfl
    have e1 : _return_context_to_pool s c =
        { s with usage := umSet s.usage c (n + 1),
                 context_pool := s.context_pool ++ [c] } := by
      simp only [_return_context_to_pool, hc, if_true, hl, Option.getD_some]
      rw [if_pos (show s.context_pool.length < max_pool_size by omega)]
    have hc2 : umContains (umSet s.usage c (n + 1)) c = true := by
      unfold umContains
      rw [umLookup_umSet_self]
      rfl
    have e2 : _return_context_to_pool (_return_context_to_pool s c) c =
        { s with usage := umSet (umSet s.usage c (n + 1)) c (n + 1 + 1),
                 context_pool := (s.context_pool ++ [c]) ++ [c] } := by
      rw [e1]
      simp only [_return_context_to_pool, hc2, if_true, umLookup_umSet_self, Option.getD_some]
      rw [if_pos (show (s.context_pool ++ [c]).length < max_pool_size by
        simp only [List.length_append, List.length_singleton]
        omega)]
    rw [e2]
    exact umLookup_umSet_self _ _ _

/-- A pool state with context 0 checked out exactly once. -/
def pool_wit_state : PoolState :=
  { context_pool := [], usage := [(0, 0)], nextId := 1, closed := [] }

/-- C7 (witness): the pool bound after no operations, and the double-release
arithmetic at a concrete state. -/
theorem pool_size_bound_spec_witness :
    (run_pool_ops _initialize_context_pool []).context_pool.length ≤ max_pool_size ∧
    umLookup (_return_context_to_pool (_return_context_to_pool pool_wit_state 0) 0).usage 0 =
      some 2 :=
  ⟨pool_size_bound_spec.1 [], pool_size_bound_spec.2 pool_wit_state 0 0 rfl (by decide)⟩

/-- C7 (counterexample): from the initialised pool, check out contexts 0 and
1 and then release context 0 twice (it was checked out once).  Its reuse
counter ends at 2 — double-counted — and it sits in the pool twice, so a
double release does corrupt the pool's content. -/
theorem double_release_double_counts_cex :
    umLookup (run_pool_ops _initialize_context_pool
        [PoolOp.acquire, PoolOp.acquire, PoolOp.release 0, PoolOp.release 0]).usage 0 =
      some 2 ∧
    (run_pool_ops _initialize_context_pool
        [PoolOp.acquire, PoolOp.acquire, PoolOp.release 0, PoolOp.release 0]).context_pool =
      [2, 3, 4, 5, 6, 7, 8, 9, 0, 0] :=
  ⟨by decide, by decide⟩

/-- C8 (amended): `stop` resets the manager to not-started with no browser,
but the stopped state is NOT terminal: a later render call lazily calls
`start()` again and is accepted — with the browser restarted — whenever the
relaunch succeeds; it raises only when the relaunch fails. -/
theorem stop_then_lazy_restart_spec (s : LifeState) (launch_ok : Bool) :
    stop_state s = { started := false, browser := false } ∧
    run_in_page_admission launch_ok (stop_state s) =
      (if launch_ok then Admission.accepted { started := true, browser := true }
       else Admission.rejected "Failed to start Playwright") := by
  refine ⟨rfl, ?_⟩
  cases launch_ok with
  | true => rfl
  | false => rfl

/-- C8 (counterexample): a render call arriving after `stop` completes is
accepted and succeeds by restarting the browser (the claim says it must
never be). -/
theorem render_after_stop_accepted_cex :
    run_in_page_admission true (stop_state { started := true, browser := true }) =
      Admission.accepted { started := true, browser := true } :=
  rfl

/-- The checkout loop hands out only contexts whose recorded reuse count is
below the limit. -/
theorem get_ctx_loop_count_lt (pool : List Nat) (usage : UsageMap) (closedAcc : List Nat)
    (c : Nat) (pool2 : List Nat) (usage2 : UsageMap) (closed2 : List Nat)
    (hres : get_ctx_loop pool usage closedAcc = (some c, pool2, usage2, closed2))
    (n : Nat) (hl : umLookup usage2 c = some n) :
    n < max_context_reuse := by
  revert hres
  induction pool generalizing usage closedAcc with
  | nil =>
    intro hres
    simp [get_ctx_loop] at hres
  | cons c0 rest ih =>
    intro hres
    unfold get_ctx_loop at hres
    cases hu : umLookup usage c0 with
    | none =>
      rw [hu] at hres
      dsimp only at hres
      simp only [Prod.mk.injEq, Option.some.injEq] at hres
      obtain ⟨hc', _, hu', _⟩ := hres
      subst hc'
      subst hu'
      rw [hu] at hl
      exact absurd hl (by simp)
    | some m =>
      rw [hu] at hres
      dsimp only at hres
      by_cases hm : m < max_context_reuse
      · rw [if_pos hm] at hres
        simp only [Prod.mk.injEq, Option.some.injEq] at hres
        obtain ⟨hc', _, hu', _⟩ := hres
        subst hc'
        subst hu'
        rw [hu] at hl
        injection hl with h
        subst h
        exact hm
      · rw [if_neg hm] at hres
        exact ih _ _ hres

/-- Every checkout result has a recorded reuse count below the limit (fresh
contexts start at 0) or no recorded count at all. -/
theorem _get_context_from_pool_count_lt (s : PoolState) (n : Nat)
    (hl : umLookup (_get_context_from_pool s).2.usage (_get_context_from_pool s).1 = some n) :
    n < max_context_reuse := by
  unfold _get_context_from_pool at hl
  rcases hres : get_ctx_loop s.context_pool s.usage s.closed with ⟨o, pool2, usage2, closed2⟩
  rw [hres] at hl
  cases o with
  | none =>
    dsimp only at hl
    rw [umLookup_umSet_self] at hl
    injection hl with h
    subst h
    decide
  | some c =>
    dsimp only at hl
    exact get_ctx_loop_count_lt s.context_pool s.usage s.closed c pool2 usage2 closed2 hres n hl

/-- C9 (amended): a context whose recorded reuse counter has reached the
limit is closed at checkout time and never handed out — every handed-out
context has a count below `_max_context_reuse` (or none recorded); but a
context whose task errored is NOT closed: `run_in_page` releases with
`from_pool=True` on every exit path, so the errored context is returned to
the pool exactly like a successful one. -/
theorem reuse_limit_checkout_spec (s : PoolState) (n : Nat) :
    (umLookup (_get_context_from_pool s).2.usage (_get_context_from_pool s).1 = some n →
      n < max_context_reuse) ∧
    (∀ fails : Bool, (run_in_page_ctx s fails).2 =
      _return_context_to_pool (_get_context_from_pool s).2 (_get_context_from_pool s).1) :=
  ⟨fun hl => _get_context_from_pool_count_lt s n hl, fun _ => rfl⟩

/-- A manager state with an empty pool and no tracked contexts. -/
def empty_pool_state : PoolState :=
  { context_pool := [], usage := [], nextId := 0, closed := [] }

/-- C9 (counterexample): a `run_in_page` call whose task errors returns its
context (id 0) to the pool instead of closing it: afterwards the pool holds
context 0, nothing was closed, and the very next checkout hands out the
same context 0 again — the claim requires it to have been destroyed. -/
theorem errored_context_returned_cex :
    (run_in_page_ctx empty_pool_state true).2.context_pool = [0] ∧
    (run_in_page_ctx empty_pool_state true).2.closed = [] ∧
    (_get_context_from_pool (run_in_page_ctx empty_pool_state true).2).1 = 0 :=
  ⟨rfl, rfl, rfl⟩

/-- C9 (witness): the checkout bound and the unconditional release at a
concrete state. -/
theorem reuse_limit_checkout_spec_witness :
    0 < max_context_reuse ∧
    (run_in_page_ctx empty_pool_state false).2 =
      _return_context_to_pool (_get_context_from_pool empty_pool_state).2
        (_get_context_from_pool empty_pool_state).1 :=
  ⟨(reuse_limit_checkout_spec empty_pool_state 0).1 rfl,
   (reuse_limit_checkout_spec empty_pool_state 0).2 false⟩

end WebX
